import Mathlib

/-
  Shallow embedding of the Result-type utility module (src/src/index.ts,
  second revision of the module, which the spec treats as authoritative).

  JavaScript runtime values are modelled by `JSVal`; objects are association
  lists of string keys and values, built with JS object-literal/spread
  semantics (`spreadObj`).  Raising a signal (`throw`) is modelled by
  `Except JSVal`; a settled promise is either resolved or rejected and
  `jsAwait` models the `await` operator.
-/

set_option autoImplicit false

namespace ResultTS

/-- A JavaScript runtime value, restricted to the shapes the module touches:
primitives, plain objects, `Error` objects (identified by their message) and
settled promises. -/
inductive JSVal where
  | undefined
  | null
  | bool (b : Bool)
  | num (n : Int)
  | str (s : String)
  | obj (fields : List (String × JSVal))
  | jsError (msg : String)
  | promiseResolved (v : JSVal)
  | promiseRejected (e : JSVal)

/-- A JavaScript object: an ordered list of key/value fields. -/
abbrev JSObj := List (String × JSVal)

/-- JavaScript truthiness of a value (`if (v)`). -/
def truthy : JSVal → Bool
  | JSVal.undefined => false
  | JSVal.null => false
  | JSVal.bool b => b
  | JSVal.num n => n != 0
  | JSVal.str s => s != ""
  | JSVal.obj _ => true
  | JSVal.jsError _ => true
  | JSVal.promiseResolved _ => true
  | JSVal.promiseRejected _ => true

/-- Property read `o.k`: the value stored under key `k`, `undefined` if absent. -/
def getField (o : JSObj) (k : String) : JSVal :=
  match o.find? (fun kv => kv.1 = k) with
  | some kv => kv.2
  | none => JSVal.undefined

/-- Property assignment during object construction: overwrite an existing key
in place, otherwise append the new field. -/
def setField (o : JSObj) (k : String) (v : JSVal) : JSObj :=
  if o.any (fun kv => kv.1 = k) then
    o.map (fun kv => if kv.1 = k then (k, v) else kv)
  else o ++ [(k, v)]

/-- Object-literal spread `{ ...base, ...extra }`: copy the fields of `extra`
into `base` in order, overwriting clashing keys. -/
def spreadObj (base extra : JSObj) : JSObj :=
  extra.foldl (fun acc kv => setField acc kv.1 kv.2) base

/-- `await v`: a non-promise value passes through, a resolved promise yields
its (recursively awaited) value, a rejected promise raises its reason. -/
def jsAwait : JSVal → Except JSVal JSVal
  | JSVal.promiseResolved v => jsAwait v
  | JSVal.promiseRejected e => Except.error e
  | v => Except.ok v

/-- `await cb()` where `cb` may itself raise synchronously. -/
def awaitCall (cb : Unit → Except JSVal JSVal) : Except JSVal JSVal :=
  match cb () with
  | Except.error e => Except.error e
  | Except.ok v => jsAwait v

/-- Nullish coalescing `v ?? d`. -/
def coalesce : JSVal → JSVal → JSVal
  | JSVal.undefined, d => d
  | JSVal.null, d => d
  | v, _ => v

/-- Optional call `f?.(x)`: `undefined` when `f` is absent. -/
def optApply (f : Option (JSObj → JSVal)) (x : JSObj) : JSVal :=
  match f with
  | none => JSVal.undefined
  | some g => g x

/-- Optional predicate call `test?.(caught)`: `undefined` when `test` is
absent, otherwise the boolean the predicate returns. -/
def optTest (test : Option (JSVal → Bool)) (caught : JSVal) : JSVal :=
  match test with
  | none => JSVal.undefined
  | some t => JSVal.bool (t caught)

/-- `ok(value?)`: `{ ok: true, ...value }`. -/
def ok (value : Option JSObj) : JSObj :=
  spreadObj [("ok", JSVal.bool true)] (value.getD [])

/-- `err(error?)`: `{ ok: false, ...error }`. -/
def err (error : Option JSObj) : JSObj :=
  spreadObj [("ok", JSVal.bool false)] (error.getD [])

/-- `when(isOk, value?)`: `isOk ? ok(value) : err(value)`. -/
def when (isOk : Bool) (value : Option JSObj) : JSObj :=
  if isOk then ok value else err value

/-- `unwrapSync(result, elseThrow?)`: return `result` if `result.ok` is
truthy, otherwise throw `elseThrow?.(result) ?? new Error("Error was
unwrapped")`. -/
def unwrapSync (result : JSObj) (elseThrow : Option (JSObj → JSVal)) :
    Except JSVal JSObj :=
  if truthy (getField result "ok") then Except.ok result
  else Except.error
    (coalesce (optApply elseThrow result) (JSVal.jsError "Error was unwrapped"))

/-- Async `unwrap(result, elseThrow?)`: return `result` if `result.ok` is
truthy, otherwise throw `(await elseThrow?.(result)) ?? new Error("Error was
unwrapped")`; the returned `Except` is the settled outcome of the promise. -/
def unwrap (result : JSObj) (elseThrow : Option (JSObj → JSVal)) :
    Except JSVal JSObj :=
  if truthy (getField result "ok") then Except.ok result
  else
    match jsAwait (optApply elseThrow result) with
    | Except.error e => Except.error e
    | Except.ok v =>
        Except.error (coalesce v (JSVal.jsError "Error was unwrapped"))

/-- `assert(result, elseThrow?)`: return (nothing) if `result.ok` is truthy,
otherwise throw `elseThrow?.(result) ?? new Error("Error was asserted")`. -/
def assert (result : JSObj) (elseThrow : Option (JSObj → JSVal)) :
    Except JSVal Unit :=
  if truthy (getField result "ok") then Except.ok ()
  else Except.error
    (coalesce (optApply elseThrow result) (JSVal.jsError "Error was asserted"))

/-- `catchErrSync(cb, test?)`: `try { return ok({ value: cb() }) } catch
(caught) { if (test?.(caught)) return err({ caught }); throw caught }`. -/
def catchErrSync (cb : Unit → Except JSVal JSVal)
    (test : Option (JSVal → Bool)) : Except JSVal JSObj :=
  match cb () with
  | Except.ok v => Except.ok (ok (some [("value", v)]))
  | Except.error caught =>
      if truthy (optTest test caught) then
        Except.ok (err (some [("caught", caught)]))
      else Except.error caught

/-- Async `catchErr(cb, test?)`: as `catchErrSync` but the callback result is
awaited (`ok({ value: await cb() })`); the `Except` is the settled outcome of
the returned promise. -/
def catchErr (cb : Unit → Except JSVal JSVal)
    (test : Option (JSVal → Bool)) : Except JSVal JSObj :=
  match awaitCall cb with
  | Except.ok v => Except.ok (ok (some [("value", v)]))
  | Except.error caught =>
      if truthy (optTest test caught) then
        Except.ok (err (some [("caught", caught)]))
      else Except.error caught

/-- A well-formed JS object: real objects never hold two fields of the same
name. -/
def WFObj (o : JSObj) : Prop := (o.map Prod.fst).Nodup

/-- A payload in the sense of the spec: caller-defined fields *beyond the
discriminant*, i.e. none of them named `ok`. -/
def ValidPayload (o : JSObj) : Prop := ∀ kv ∈ o, kv.1 ≠ "ok"

instance (o : JSObj) : Decidable (WFObj o) := by
  unfold WFObj; infer_instance

instance (o : JSObj) : Decidable (ValidPayload o) := by
  unfold ValidPayload; infer_instance

/-! ### Helper lemmas about object construction and field access -/

theorem setField_not_mem (o : JSObj) (k : String) (v : JSVal)
    (h : ∀ kv ∈ o, kv.1 ≠ k) : setField o k v = o ++ [(k, v)] := by
  unfold setField
  rw [if_neg]
  simp only [List.any_eq_true, decide_eq_true_eq, not_exists]
  intro kv
  intro hcontra
  exact h kv hcontra.1 hcontra.2

theorem spreadObj_disjoint (extra : JSObj) :
    ∀ base : JSObj, (extra.map Prod.fst).Nodup →
    (∀ kv ∈ extra, ∀ kv' ∈ base, kv.1 ≠ kv'.1) →
    spreadObj base extra = base ++ extra := by
  induction extra with
  | nil =>
      intro base _ _
      simp [spreadObj]
  | cons hd rest ih =>
      intro base hnd hdisj
      obtain ⟨k, v⟩ := hd
      have hnd' : (k :: rest.map Prod.fst).Nodup := by simpa using hnd
      have hk_not_rest : k ∉ rest.map Prod.fst := (List.nodup_cons.mp hnd').1
      have hnd_rest : (rest.map Prod.fst).Nodup := (List.nodup_cons.mp hnd').2
      have hbase : ∀ kv ∈ base, kv.1 ≠ k := by
        intro kv hkv
        exact fun hcontra =>
          (hdisj (k, v) (List.mem_cons_self (k, v) rest) kv hkv) hcontra.symm
      have hstep : spreadObj base ((k, v) :: rest) = spreadObj (setField base k v) rest := rfl
      rw [hstep, setField_not_mem base k v hbase]
      rw [ih (base ++ [(k, v)]) hnd_rest]
      · simp
      · intro kv hkv kv' hkv'
        rcases List.mem_append.mp hkv' with hin | hsing
        · exact hdisj kv (List.mem_cons_of_mem _ hkv) kv' hin
        · have : kv' = (k, v) := by simpa using hsing
          subst this
          intro hcontra
          exact hk_not_rest (by
            simpa [hcontra] using List.mem_map_of_mem Prod.fst hkv)

theorem ok_eq_cons (P : Option JSObj) (hnd : WFObj (P.getD []))
    (hv : ValidPayload (P.getD [])) :
    ok P = ("ok", JSVal.bool true) :: P.getD [] := by
  unfold ok
  rw [spreadObj_disjoint _ _ hnd]
  · rfl
  · intro kv hkv kv' hkv'
    have : kv' = ("ok", JSVal.bool true) := by simpa using hkv'
    subst this
    exact hv kv hkv

theorem err_eq_cons (P : Option JSObj) (hnd : WFObj (P.getD []))
    (hv : ValidPayload (P.getD [])) :
    err P = ("ok", JSVal.bool false) :: P.getD [] := by
  unfold err
  rw [spreadObj_disjoint _ _ hnd]
  · rfl
  · intro kv hkv kv' hkv'
    have : kv' = ("ok", JSVal.bool false) := by simpa using hkv'
    subst this
    exact hv kv hkv

theorem getField_cons_eq (o : JSObj) (k : String) (v : JSVal) :
    getField ((k, v) :: o) k = v := by
  simp [getField, List.find?]

theorem getField_cons_ne (o : JSObj) (k k' : String) (v : JSVal) (h : k' ≠ k) :
    getField ((k, v) :: o) k' = getField o k' := by
  simp [getField, List.find?, Ne.symm h]

theorem getField_ok_discriminant (P : Option JSObj) (hnd : WFObj (P.getD []))
    (hv : ValidPayload (P.getD [])) :
    getField (ok P) "ok" = JSVal.bool true := by
  rw [ok_eq_cons P hnd hv, getField_cons_eq]

theorem getField_err_discriminant (P : Option JSObj) (hnd : WFObj (P.getD []))
    (hv : ValidPayload (P.getD [])) :
    getField (err P) "ok" = JSVal.bool false := by
  rw [err_eq_cons P hnd hv, getField_cons_eq]

theorem coalesce_not_nullish (v d : JSVal) (h1 : v ≠ JSVal.null)
    (h2 : v ≠ JSVal.undefined) : coalesce v d = v := by
  cases v with
  | undefined => exact absurd rfl h2
  | null => exact absurd rfl h1
  | bool b => rfl
  | num n => rfl
  | str s => rfl
  | obj fields => rfl
  | jsError msg => rfl
  | promiseResolved v => rfl
  | promiseRejected e => rfl

/-! ### Claims -/

/-- Claim C1 (code bug): the spec, the doc comments and the overload
signatures of `catchErr`/`catchErrSync` say that with the `test` filter
omitted every raised signal is caught and returned as `Err({ caught:
signal })`; but in the code `test?.(caught)` evaluates to `undefined`
(falsy) when `test` is omitted, so the signal is re-raised instead.  This
theorem evaluates the code at the failing input: a callback raising the
string signal "boom" with no filter re-raises "boom" and does not return
the Err result the claim demands. -/
theorem c1_omitted_test_rethrows :
    catchErrSync (fun _ => Except.error (JSVal.str "boom")) none
      = Except.error (JSVal.str "boom")
    ∧ catchErr (fun _ => Except.error (JSVal.str "boom")) none
      = Except.error (JSVal.str "boom")
    ∧ catchErrSync (fun _ => Except.error (JSVal.str "boom")) none
      ≠ Except.ok (err (some [("caught", JSVal.str "boom")])) := by
  refine ⟨rfl, rfl, ?_⟩
  intro h
  have h' : (Except.error (JSVal.str "boom") : Except JSVal JSObj)
      = Except.ok [("ok", JSVal.bool false), ("caught", JSVal.str "boom")] := h
  simp at h'

/-- Claim C2 counterexample: a payload that itself carries a field named
`ok` overrides the discriminant, because `ok(value)` is `{ ok: true,
...value }` and the spread overwrites.  `ok({ ok: false })` yields an
object whose discriminant is `false` even though it was built by the
success constructor, refuting the claim for caller-controlled field names
that include the discriminant name. -/
theorem c2_counterexample :
    getField (ok (some [("ok", JSVal.bool false)])) "ok" = JSVal.bool false
    ∧ getField (ok (some [("ok", JSVal.bool false)])) "ok" ≠ JSVal.bool true := by
  refine ⟨rfl, ?_⟩
  intro h
  have h' : JSVal.bool false = JSVal.bool true := h
  simp at h'

/-- Claim C2 (amended): for payloads that do not reuse the discriminant
field name `ok`, the discriminant is present on every constructed value and
reflects the variant: `true` exactly for `ok` (and `when` with a true
condition), `false` exactly for `err` (and `when` with a false
condition). -/
theorem c2_discriminant_invariant (P : Option JSObj) (hnd : WFObj (P.getD []))
    (hv : ValidPayload (P.getD [])) :
    getField (ok P) "ok" = JSVal.bool true
    ∧ getField (err P) "ok" = JSVal.bool false
    ∧ getField (when true P) "ok" = JSVal.bool true
    ∧ getField (when false P) "ok" = JSVal.bool false :=
  ⟨getField_ok_discriminant P hnd hv, getField_err_discriminant P hnd hv,
   getField_ok_discriminant P hnd hv, getField_err_discriminant P hnd hv⟩

/-- Claim C2 witness: the amended invariant at the concrete payload
`{ count: 3 }`. -/
theorem c2_discriminant_invariant_witness :
    WFObj [("count", JSVal.num 3)] ∧ ValidPayload [("count", JSVal.num 3)]
    ∧ (getField (ok (some [("count", JSVal.num 3)])) "ok" = JSVal.bool true
      ∧ getField (err (some [("count", JSVal.num 3)])) "ok" = JSVal.bool false
      ∧ getField (when true (some [("count", JSVal.num 3)])) "ok" = JSVal.bool true
      ∧ getField (when false (some [("count", JSVal.num 3)])) "ok" = JSVal.bool false) :=
  ⟨by decide, by decide,
   c2_discriminant_invariant (some [("count", JSVal.num 3)]) (by decide) (by decide)⟩

/-- Claim C6: for a payload P that does not reuse the discriminant name,
`ok(P)` carries discriminant `true`, `err(P)` carries discriminant
`false`, every field of P appears unchanged at the same level as the
discriminant, and the payload-less constructors produce just the
discriminant field. -/
theorem c6_constructor_fields (P : JSObj) (hnd : WFObj P) (hv : ValidPayload P) :
    getField (ok (some P)) "ok" = JSVal.bool true
    ∧ getField (err (some P)) "ok" = JSVal.bool false
    ∧ (∀ k, k ≠ "ok" → getField (ok (some P)) k = getField P k)
    ∧ (∀ k, k ≠ "ok" → getField (err (some P)) k = getField P k)
    ∧ ok none = [("ok", JSVal.bool true)]
    ∧ err none = [("ok", JSVal.bool false)] := by
  refine ⟨getField_ok_discriminant (some P) hnd hv,
    getField_err_discriminant (some P) hnd hv, ?_, ?_, rfl, rfl⟩
  · intro k hk
    rw [ok_eq_cons (some P) hnd hv]
    exact getField_cons_ne _ _ _ _ hk
  · intro k hk
    rw [err_eq_cons (some P) hnd hv]
    exact getField_cons_ne _ _ _ _ hk

/-- Claim C6 witness: the constructor contract at the concrete payload
`{ count: 3 }`, checking the `count` field in particular. -/
theorem c6_constructor_fields_witness :
    WFObj [("count", JSVal.num 3)] ∧ ValidPayload [("count", JSVal.num 3)]
    ∧ (getField (ok (some [("count", JSVal.num 3)])) "ok" = JSVal.bool true
      ∧ getField (err (some [("count", JSVal.num 3)])) "ok" = JSVal.bool false
      ∧ (∀ k, k ≠ "ok" →
          getField (ok (some [("count", JSVal.num 3)])) k
            = getField [("count", JSVal.num 3)] k)
      ∧ (∀ k, k ≠ "ok" →
          getField (err (some [("count", JSVal.num 3)])) k
            = getField [("count", JSVal.num 3)] k)
      ∧ ok none = [("ok", JSVal.bool true)]
      ∧ err none = [("ok", JSVal.bool false)]) :=
  ⟨by decide, by decide,
   c6_constructor_fields [("count", JSVal.num 3)] (by decide) (by decide)⟩

/-- Claim C7: `when(true, P)` is the very value `ok(P)` and `when(false,
P)` is the very value `err(P)`, the same payload argument being attached to
whichever variant is produced; this holds for every payload, the payload
being passed through untouched. -/
theorem c7_when_dispatch (P : Option JSObj) :
    when true P = ok P ∧ when false P = err P :=
  ⟨rfl, rfl⟩

/-- Claim C3 counterexample: when the failure producer returns `null`, the
raised value is not the producer's return value but the default error,
because the code coalesces `elseThrow?.(result) ?? new Error("Error was
unwrapped")`.  At `err({ reason: "r" })` with the constant-`null` producer,
`unwrapSync` raises the default error and not `null`. -/
theorem c3_counterexample :
    unwrapSync (err (some [("reason", JSVal.str "r")])) (some (fun _ => JSVal.null))
      = Except.error (JSVal.jsError "Error was unwrapped")
    ∧ unwrapSync (err (some [("reason", JSVal.str "r")])) (some (fun _ => JSVal.null))
      ≠ Except.error JSVal.null := by
  refine ⟨rfl, ?_⟩
  intro h
  have h' : (Except.error (JSVal.jsError "Error was unwrapped") : Except JSVal JSObj)
      = Except.error JSVal.null := h
  simp at h'

/-- Claim C3 (amended): for every payload not reusing the discriminant
name, `unwrapSync`/`unwrap` on `err(P)` raise; with no producer the raised
value is the default `Error("Error was unwrapped")`, and with a producer
whose (awaited, in the async form) return value is not null or undefined
the raised value equals that return value (a nullish producer result falls
back to the default error). -/
theorem c3_unwrap_err_raises (P : Option JSObj) (hnd : WFObj (P.getD []))
    (hv : ValidPayload (P.getD [])) (f : JSObj → JSVal) :
    unwrapSync (err P) none = Except.error (JSVal.jsError "Error was unwrapped")
    ∧ unwrap (err P) none = Except.error (JSVal.jsError "Error was unwrapped")
    ∧ (f (err P) ≠ JSVal.null → f (err P) ≠ JSVal.undefined →
        unwrapSync (err P) (some f) = Except.error (f (err P)))
    ∧ (∀ w, jsAwait (f (err P)) = Except.ok w →
        w ≠ JSVal.null → w ≠ JSVal.undefined →
        unwrap (err P) (some f) = Except.error w) := by
  have hfalse : truthy (getField (err P) "ok") = false := by
    rw [getField_err_discriminant P hnd hv]; rfl
  refine ⟨?_, ?_, ?_, ?_⟩
  · simp [unwrapSync, hfalse, optApply, coalesce]
  · simp [unwrap, hfalse, optApply, jsAwait, coalesce]
  · intro h1 h2
    simp [unwrapSync, hfalse, optApply, coalesce_not_nullish _ _ h1 h2]
  · intro w hw h1 h2
    simp [unwrap, hfalse, optApply, hw, coalesce_not_nullish _ _ h1 h2]

/-- Claim C3 witness: at `err({ reason: "r" })` with a producer returning
the string "boom" (wrapped in a resolved promise for the async form, which
awaits it before raising). -/
theorem c3_unwrap_err_raises_witness :
    WFObj [("reason", JSVal.str "r")] ∧ ValidPayload [("reason", JSVal.str "r")]
    ∧ (unwrapSync (err (some [("reason", JSVal.str "r")])) none
        = Except.error (JSVal.jsError "Error was unwrapped")
      ∧ unwrap (err (some [("reason", JSVal.str "r")])) none
        = Except.error (JSVal.jsError "Error was unwrapped")
      ∧ ((fun _ => JSVal.promiseResolved (JSVal.str "boom"))
            (err (some [("reason", JSVal.str "r")])) ≠ JSVal.null →
         (fun _ => JSVal.promiseResolved (JSVal.str "boom"))
            (err (some [("reason", JSVal.str "r")])) ≠ JSVal.undefined →
          unwrapSync (err (some [("reason", JSVal.str "r")]))
            (some (fun _ => JSVal.promiseResolved (JSVal.str "boom")))
            = Except.error ((fun _ => JSVal.promiseResolved (JSVal.str "boom"))
                (err (some [("reason", JSVal.str "r")]))))
      ∧ (∀ w, jsAwait ((fun _ => JSVal.promiseResolved (JSVal.str "boom"))
            (err (some [("reason", JSVal.str "r")]))) = Except.ok w →
          w ≠ JSVal.null → w ≠ JSVal.undefined →
          unwrap (err (some [("reason", JSVal.str "r")]))
            (some (fun _ => JSVal.promiseResolved (JSVal.str "boom")))
            = Except.error w)) :=
  ⟨by decide, by decide,
   c3_unwrap_err_raises (some [("reason", JSVal.str "r")]) (by decide) (by decide)
     (fun _ => JSVal.promiseResolved (JSVal.str "boom"))⟩

/-- Claim C8: `unwrapSync` and `unwrap` are the identity on `ok(P)` (the
async form resolving to the same value), for every payload not reusing
the discriminant name and regardless of any supplied failure producer. -/
theorem c8_unwrap_ok_identity (P : Option JSObj) (hnd : WFObj (P.getD []))
    (hv : ValidPayload (P.getD [])) (elseThrow : Option (JSObj → JSVal)) :
    unwrapSync (ok P) elseThrow = Except.ok (ok P)
    ∧ unwrap (ok P) elseThrow = Except.ok (ok P) := by
  have htrue : truthy (getField (ok P) "ok") = true := by
    rw [getField_ok_discriminant P hnd hv]; rfl
  exact ⟨by simp [unwrapSync, htrue], by simp [unwrap, htrue]⟩

/-- Claim C8 witness: both unwrap forms return `ok({ count: 3 })`
unchanged. -/
theorem c8_unwrap_ok_identity_witness :
    WFObj [("count", JSVal.num 3)] ∧ ValidPayload [("count", JSVal.num 3)]
    ∧ (unwrapSync (ok (some [("count", JSVal.num 3)])) none
        = Except.ok (ok (some [("count", JSVal.num 3)]))
      ∧ unwrap (ok (some [("count", JSVal.num 3)])) none
        = Except.ok (ok (some [("count", JSVal.num 3)]))) :=
  ⟨by decide, by decide,
   c8_unwrap_ok_identity (some [("count", JSVal.num 3)]) (by decide) (by decide) none⟩

/-- Claim C9 counterexample: when the failure producer passed to `assert`
returns `undefined`, the raised value is not `undefined` but the default
`Error("Error was asserted")`, because of the nullish coalescing. -/
theorem c9_counterexample :
    assert (err none) (some (fun _ => JSVal.undefined))
      = Except.error (JSVal.jsError "Error was asserted")
    ∧ assert (err none) (some (fun _ => JSVal.undefined))
      ≠ Except.error JSVal.undefined := by
  refine ⟨rfl, ?_⟩
  intro h
  have h' : (Except.error (JSVal.jsError "Error was asserted") : Except JSVal Unit)
      = Except.error JSVal.undefined := h
  simp at h'

/-- Claim C9 (amended): for every payload not reusing the discriminant
name, `assert` on `ok(P)` returns without raising (whatever producer is
supplied), and on `err(P)` raises under the same rules as `unwrap`: the
default `Error("Error was asserted")` with no producer, the producer's
return value when one is given and that value is not null or undefined
(nullish producer results fall back to the default error). -/
theorem c9_assert_rules (P : Option JSObj) (hnd : WFObj (P.getD []))
    (hv : ValidPayload (P.getD [])) (g : Option (JSObj → JSVal))
    (f : JSObj → JSVal) :
    assert (ok P) g = Except.ok ()
    ∧ assert (err P) none = Except.error (JSVal.jsError "Error was asserted")
    ∧ (f (err P) ≠ JSVal.null → f (err P) ≠ JSVal.undefined →
        assert (err P) (some f) = Except.error (f (err P))) := by
  have htrue : truthy (getField (ok P) "ok") = true := by
    rw [getField_ok_discriminant P hnd hv]; rfl
  have hfalse : truthy (getField (err P) "ok") = false := by
    rw [getField_err_discriminant P hnd hv]; rfl
  refine ⟨by simp [assert, htrue], by simp [assert, hfalse, optApply, coalesce], ?_⟩
  intro h1 h2
  simp [assert, hfalse, optApply, coalesce_not_nullish _ _ h1 h2]

/-- Claim C9 witness: `assert` at `ok({ count: 3 })` and at
`err({ count: 3 })`, the producer returning the string "boom". -/
theorem c9_assert_rules_witness :
    WFObj [("count", JSVal.num 3)] ∧ ValidPayload [("count", JSVal.num 3)]
    ∧ (assert (ok (some [("count", JSVal.num 3)])) none = Except.ok ()
      ∧ assert (err (some [("count", JSVal.num 3)])) none
          = Except.error (JSVal.jsError "Error was asserted")
      ∧ ((fun _ => JSVal.str "boom") (err (some [("count", JSVal.num 3)]))
            ≠ JSVal.null →
         (fun _ => JSVal.str "boom") (err (some [("count", JSVal.num 3)]))
            ≠ JSVal.undefined →
         assert (err (some [("count", JSVal.num 3)]))
            (some (fun _ => JSVal.str "boom"))
            = Except.error ((fun _ => JSVal.str "boom")
                (err (some [("count", JSVal.num 3)]))))) :=
  ⟨by decide, by decide,
   c9_assert_rules (some [("count", JSVal.num 3)]) (by decide) (by decide) none
     (fun _ => JSVal.str "boom")⟩

/-- Claim C10: when a failure producer is supplied to `unwrapSync`,
`unwrap` or `assert` but its return value (awaited first in the async
`unwrap`) is null or undefined, the raised signal is the default generic
error, not the nullish value, because the producer's result is
nullish-coalesced with the default. -/
theorem c10_nullish_producer_default (P : Option JSObj) (hnd : WFObj (P.getD []))
    (hv : ValidPayload (P.getD [])) (f : JSObj → JSVal) :
    (f (err P) = JSVal.null ∨ f (err P) = JSVal.undefined →
      unwrapSync (err P) (some f)
          = Except.error (JSVal.jsError "Error was unwrapped")
      ∧ assert (err P) (some f)
          = Except.error (JSVal.jsError "Error was asserted"))
    ∧ (∀ w, jsAwait (f (err P)) = Except.ok w →
        (w = JSVal.null ∨ w = JSVal.undefined) →
        unwrap (err P) (some f)
          = Except.error (JSVal.jsError "Error was unwrapped")) := by
  have hfalse : truthy (getField (err P) "ok") = false := by
    rw [getField_err_discriminant P hnd hv]; rfl
  constructor
  · intro h
    rcases h with h | h <;>
      exact ⟨by simp [unwrapSync, hfalse, optApply, h, coalesce],
             by simp [assert, hfalse, optApply, h, coalesce]⟩
  · intro w hw h
    rcases h with h | h <;> simp [unwrap, hfalse, optApply, hw, h, coalesce]

/-- Claim C10 witness: a producer returning a promise resolved with `null`:
all three raise the respective default error. -/
theorem c10_nullish_producer_default_witness :
    WFObj ([] : JSObj) ∧ ValidPayload ([] : JSObj)
    ∧ (((fun _ => JSVal.null) (err (some [])) = JSVal.null
        ∨ (fun _ => JSVal.null) (err (some [])) = JSVal.undefined →
        unwrapSync (err (some [])) (some (fun _ => JSVal.null))
            = Except.error (JSVal.jsError "Error was unwrapped")
        ∧ assert (err (some [])) (some (fun _ => JSVal.null))
            = Except.error (JSVal.jsError "Error was asserted"))
      ∧ (∀ w, jsAwait ((fun _ => JSVal.null) (err (some []))) = Except.ok w →
          (w = JSVal.null ∨ w = JSVal.undefined) →
          unwrap (err (some [])) (some (fun _ => JSVal.null))
            = Except.error (JSVal.jsError "Error was unwrapped"))) :=
  ⟨by decide, by decide,
   c10_nullish_producer_default (some []) (by decide) (by decide)
     (fun _ => JSVal.null)⟩

/-- Claim C4: for a callback raising signal S and a supplied filter `test`,
`catchErrSync` and `catchErr` return `Err({ caught: S })` when `test S` is
true and re-raise the original signal S unchanged when `test S` is
false. -/
theorem c4_filter_dispatch (cb : Unit → Except JSVal JSVal) (S : JSVal)
    (t : JSVal → Bool) (hcb : cb () = Except.error S) :
    (t S = true →
      catchErrSync cb (some t) = Except.ok (err (some [("caught", S)]))
      ∧ catchErr cb (some t) = Except.ok (err (some [("caught", S)])))
    ∧ (t S = false →
      catchErrSync cb (some t) = Except.error S
      ∧ catchErr cb (some t) = Except.error S) := by
  have hasync : awaitCall cb = Except.error S := by simp [awaitCall, hcb]
  constructor
  · intro ht
    exact ⟨by simp [catchErrSync, hcb, optTest, truthy, ht],
           by simp [catchErr, hasync, optTest, truthy, ht]⟩
  · intro ht
    exact ⟨by simp [catchErrSync, hcb, optTest, truthy, ht],
           by simp [catchErr, hasync, optTest, truthy, ht]⟩

/-- Claim C4 witness: a callback raising the string "x" with a filter that
accepts exactly strings equal to "x". -/
theorem c4_filter_dispatch_witness :
    (fun _ : Unit => (Except.error (JSVal.str "x") : Except JSVal JSVal)) ()
        = Except.error (JSVal.str "x")
    ∧ (((fun v => match v with
          | JSVal.str s => s = "x"
          | _ => false) (JSVal.str "x") = true →
        catchErrSync (fun _ => Except.error (JSVal.str "x"))
            (some (fun v => match v with
              | JSVal.str s => s = "x"
              | _ => false))
          = Except.ok (err (some [("caught", JSVal.str "x")]))
        ∧ catchErr (fun _ => Except.error (JSVal.str "x"))
            (some (fun v => match v with
              | JSVal.str s => s = "x"
              | _ => false))
          = Except.ok (err (some [("caught", JSVal.str "x")])))
      ∧ ((fun v => match v with
          | JSVal.str s => s = "x"
          | _ => false) (JSVal.str "x") = false →
        catchErrSync (fun _ => Except.error (JSVal.str "x"))
            (some (fun v => match v with
              | JSVal.str s => s = "x"
              | _ => false))
          = Except.error (JSVal.str "x")
        ∧ catchErr (fun _ => Except.error (JSVal.str "x"))
            (some (fun v => match v with
              | JSVal.str s => s = "x"
              | _ => false))
          = Except.error (JSVal.str "x"))) :=
  ⟨rfl,
   c4_filter_dispatch (fun _ => Except.error (JSVal.str "x")) (JSVal.str "x")
     (fun v => match v with
       | JSVal.str s => s = "x"
       | _ => false) rfl⟩

/-- Claim C5: a callback that completes without raising, producing value v,
makes `catchErrSync` return `Ok({ value: v })` with the produced value
itself, and makes `catchErr` return `Ok({ value: w })` with the resolved
(awaited) value w, whatever the optional filter is. -/
theorem c5_success_value (cb : Unit → Except JSVal JSVal) (v w : JSVal)
    (test : Option (JSVal → Bool)) (hcb : cb () = Except.ok v)
    (hres : jsAwait v = Except.ok w) :
    catchErrSync cb test = Except.ok (ok (some [("value", v)]))
    ∧ catchErr cb test = Except.ok (ok (some [("value", w)])) := by
  have hasync : awaitCall cb = Except.ok w := by simp [awaitCall, hcb, hres]
  exact ⟨by simp [catchErrSync, hcb], by simp [catchErr, hasync]⟩

/-- Claim C5 witness: a callback returning a promise resolved with the
number 5 and no filter: the sync form nests the promise itself under
`value`, the async form nests the awaited number 5. -/
theorem c5_success_value_witness :
    (fun _ : Unit =>
        (Except.ok (JSVal.promiseResolved (JSVal.num 5)) : Except JSVal JSVal)) ()
      = Except.ok (JSVal.promiseResolved (JSVal.num 5))
    ∧ jsAwait (JSVal.promiseResolved (JSVal.num 5)) = Except.ok (JSVal.num 5)
    ∧ (catchErrSync (fun _ => Except.ok (JSVal.promiseResolved (JSVal.num 5))) none
        = Except.ok (ok (some [("value", JSVal.promiseResolved (JSVal.num 5))]))
      ∧ catchErr (fun _ => Except.ok (JSVal.promiseResolved (JSVal.num 5))) none
        = Except.ok (ok (some [("value", JSVal.num 5)]))) :=
  ⟨rfl, rfl,
   c5_success_value (fun _ => Except.ok (JSVal.promiseResolved (JSVal.num 5)))
     (JSVal.promiseResolved (JSVal.num 5)) (JSVal.num 5) none rfl rfl⟩

end ResultTS
